import Mathlib

/-!
Verification of the costa-cli authentication and token lifecycle subsystem
(package `auth`, file `token.go`, plus its callers), shallowly embedded in
Lean 4.  Go machine state is made explicit:

* `time.Time` instants and `time.Duration` values are integers (nanoseconds);
  the wall clock `time.Now()` becomes an explicit `now : Instant` argument.
* A possibly-nil Go pointer `*TokenData` is `Option TokenData`.
* The package-level mutable state (the `useKeyring` flag, the system keyring,
  the metadata file and the token file) is a `StoreState` record threaded
  through every operation; the OS keyring being reachable at all is the
  environment flag `keyringAvailable`.
* Fallible operations return `Except Unit`, mirroring the Go `error` results;
  plain-file reads and writes and JSON (de)serialization of the well-typed
  structures are modelled as reliable and exact, which matches Go round
  tripping of these concrete struct types.
-/

/-- Decidable equality for `Except`, used to evaluate store results on
concrete inputs. -/
instance {ε α : Type} [DecidableEq ε] [DecidableEq α] : DecidableEq (Except ε α) := fun a b =>
  match a, b with
  | .ok a, .ok b => decidable_of_iff (a = b) (by simp)
  | .error a, .error b => decidable_of_iff (a = b) (by simp)
  | .ok _, .error _ => isFalse (by intro h; cases h)
  | .error _, .ok _ => isFalse (by intro h; cases h)

namespace CostaAuth

/-- Go `time.Time` instants, as nanoseconds on an absolute axis. -/
abbrev Instant := Int

/-- Go `time.Duration`, a signed nanosecond count. -/
abbrev Duration := Int

/-- `DefaultClockSkew = 5 * time.Minute`, the buffer before expiry that
triggers refresh (token.go line 22). -/
def DefaultClockSkew : Duration := 5 * 60 * 1000000000

/-- `TokenData` (token.go lines 42-47): one bearer credential.  `expiresAt`
is the `*time.Time` field, `none` when the JSON field is absent. -/
structure TokenData where
  expiresAt : Option Instant
  accessToken : String
  refreshToken : String
  tokenType : String
deriving Repr, DecidableEq

/-- `(*TokenData).IsExpiredWithSkew` (token.go lines 50-55).  The receiver is
a possibly-nil pointer, hence `Option TokenData`.  A nil receiver or a nil
`expiresAt` yields `false` (long-lived token); otherwise the result is
`time.Now().Add(skew).After(*td.ExpiresAt)`, a strict comparison. -/
def IsExpiredWithSkew (td : Option TokenData) (now : Instant) (skew : Duration) : Bool :=
  match td with
  | none => false
  | some t =>
    match t.expiresAt with
    | none => false
    | some e => decide (e < now + skew)

/-- `(*TokenData).IsValid` (token.go lines 58-63): false on a nil receiver or
an empty access token, otherwise the negation of `IsExpiredWithSkew` at the
default skew. -/
def IsValid (td : Option TokenData) (now : Instant) : Bool :=
  match td with
  | none => false
  | some t =>
    if t.accessToken = "" then false
    else !(IsExpiredWithSkew (some t) now DefaultClockSkew)

/-- C2: for every (non-nil) `TokenData`, `IsValid` holds exactly when the
access token is non-empty and the token is not expired under the default
5-minute skew; `IsExpiredWithSkew` holds exactly when an expiry is present
and `now + skew` is strictly after it; and a token without an expiry is
never expired under any skew. -/
theorem c2_validity_predicates (t : TokenData) (now : Instant) (skew : Duration) :
    (IsValid (some t) now = true ↔
      (t.accessToken ≠ "" ∧ IsExpiredWithSkew (some t) now DefaultClockSkew = false))
    ∧ (IsExpiredWithSkew (some t) now skew = true ↔
      (∃ e, t.expiresAt = some e ∧ e < now + skew))
    ∧ (IsExpiredWithSkew (some { t with expiresAt := none }) now skew = false) := by
  refine ⟨?_, ?_, rfl⟩
  · unfold IsValid
    by_cases h : t.accessToken = "" <;> simp [h]
  · unfold IsExpiredWithSkew
    cases h : t.expiresAt with
    | none => simp [h]
    | some e => simp [h]

/-- C10: the validity predicates are total over an absent token: a nil
`*TokenData` receiver is never expired under any skew, and is never valid. -/
theorem c10_nil_token_predicates_total (now : Instant) (skew : Duration) :
    IsExpiredWithSkew none now skew = false ∧ IsValid none now = false :=
  ⟨rfl, rfl⟩

/-- C7 as stated is false on the code: with `expires_at = now + d` and
`skew = d` (here `d = 300` and `now = 0`), `skew ≥ d` holds but
`IsExpiredWithSkew` is `false`, because the Go comparison
`time.Now().Add(skew).After(expiresAt)` is strict. -/
theorem c7_skew_equal_not_expired :
    ¬ (∀ (now : Instant) (t : TokenData) (d skew : Duration), 0 ≤ d →
        t.expiresAt = some (now + d) →
        (IsExpiredWithSkew (some t) now skew = true ↔ d ≤ skew)) := by
  intro h
  have h300 := h 0 ⟨some 300, "tok", "", "Bearer"⟩ 300 300 (by decide) (by decide)
  have : IsExpiredWithSkew (some ⟨some 300, "tok", "", "Bearer"⟩) 0 300 = true :=
    h300.mpr (by decide)
  exact absurd this (by decide)

/-- C7 amended: for a token whose expiry is `now + d`, `IsExpiredWithSkew`
at skew `skew` holds if and only if `d < skew` (strictly), for every integer
skew and every integer `d`. -/
theorem c7_expiry_skew_strict (now : Instant) (t : TokenData) (d skew : Duration)
    (hexp : t.expiresAt = some (now + d)) :
    IsExpiredWithSkew (some t) now skew = true ↔ d < skew := by
  unfold IsExpiredWithSkew
  simp [hexp]

/-- Witness for `c7_expiry_skew_strict` at `now = 0`, `d = 1`, `skew = 2`. -/
theorem c7_expiry_skew_strict_witness :
    IsExpiredWithSkew (some ⟨some 1, "tok", "", "Bearer"⟩) 0 2 = true ↔ (1 : Duration) < 2 :=
  c7_expiry_skew_strict 0 ⟨some 1, "tok", "", "Bearer"⟩ 1 2 (by decide)

/-- `Token` (token.go lines 66-71): the stored credential bundle.  `cli` is
the deprecated legacy single-token field, kept only for reading old files. -/
structure Token where
  coding : Option TokenData
  oauth : Option TokenData
  cli : Option TokenData
deriving Repr, DecidableEq

/-- `TokenMetadata` (token.go lines 74-79): the non-secret shadow of `Token`
stored in a plain file next to the vault. -/
structure TokenMetadata where
  oauthExpiresAt : Option Instant
  oauthTokenType : String
  codingExpiresAt : Option Instant
  codingTokenType : String
deriving Repr, DecidableEq

/-- The three fixed vault entries, keyed by the account names
`oauth-access-token`, `oauth-refresh-token` and `coding-access-token`
(token.go lines 28-30).  `none` is an absent entry. -/
structure VaultState where
  oauthAccess : Option String
  oauthRefresh : Option String
  codingAccess : Option String
deriving Repr, DecidableEq

/-- The vault with no entries stored. -/
def VaultState.empty : VaultState := ⟨none, none, none⟩

/-- The mutable state the token store operates on: the package-level
`useKeyring` flag (token.go line 38), the OS keyring content, the metadata
file and the token file (each `none` when the file does not exist).
`keyringAvailable` is the environment: whether the OS keyring backend can be
reached at all (when `false`, every `keyring.Set` and `keyring.Get` returns
an error that is not `ErrNotFound`). -/
structure StoreState where
  useKeyring : Bool
  keyringAvailable : Bool
  vault : VaultState
  metadataFile : Option TokenMetadata
  tokenFile : Option Token
deriving Repr, DecidableEq

/-- Names for the three vault entries. -/
inductive KeyringKey
  | oauthAccess
  | oauthRefresh
  | codingAccess
deriving Repr, DecidableEq

/-- `keyring.Set(keyringService, key, v)`: fails when the keyring backend is
unreachable, otherwise stores the secret. -/
def keyringSet (s : StoreState) (k : KeyringKey) (v : String) : Except Unit StoreState :=
  if s.keyringAvailable then
    .ok (match k with
      | .oauthAccess => { s with vault := { s.vault with oauthAccess := some v } }
      | .oauthRefresh => { s with vault := { s.vault with oauthRefresh := some v } }
      | .codingAccess => { s with vault := { s.vault with codingAccess := some v } })
  else .error ()

/-- Outcome of `keyring.Get`: the secret, `keyring.ErrNotFound` for an absent
entry, or any other error when the backend is unreachable. -/
inductive KeyringGetResult
  | found (v : String)
  | notFound
  | otherError
deriving Repr, DecidableEq

/-- `keyring.Get(keyringService, key)`. -/
def keyringGet (s : StoreState) (k : KeyringKey) : KeyringGetResult :=
  if s.keyringAvailable then
    match (match k with
      | .oauthAccess => s.vault.oauthAccess
      | .oauthRefresh => s.vault.oauthRefresh
      | .codingAccess => s.vault.codingAccess) with
    | some v => .found v
    | none => .notFound
  else .otherError

/-- token.go lines 139-151: store the OAuth access and refresh tokens in the
vault when the slot is present, skipping each empty component. -/
def saveOAuthToVault (token : Token) (s : StoreState) : Except Unit StoreState :=
  match token.oauth with
  | none => .ok s
  | some o =>
    match (if o.accessToken = "" then .ok s else keyringSet s .oauthAccess o.accessToken) with
    | .error e => .error e
    | .ok s1 =>
      if o.refreshToken = "" then .ok s1 else keyringSet s1 .oauthRefresh o.refreshToken

/-- token.go lines 153-158: store the coding access token in the vault when
present and non-empty. -/
def saveCodingToVault (token : Token) (s : StoreState) : Except Unit StoreState :=
  match token.coding with
  | none => .ok s
  | some c => if c.accessToken = "" then .ok s else keyringSet s .codingAccess c.accessToken

/-- token.go lines 160-169: the metadata derived from a bundle; absent slots
leave the Go zero values (`nil` expiry, empty type). -/
def buildMetadata (token : Token) : TokenMetadata :=
  { oauthExpiresAt := match token.oauth with | some o => o.expiresAt | none => none
    oauthTokenType := match token.oauth with | some o => o.tokenType | none => ""
    codingExpiresAt := match token.coding with | some c => c.expiresAt | none => none
    codingTokenType := match token.coding with | some c => c.tokenType | none => "" }

/-- `saveTokenToKeyring` (token.go lines 138-182): vault writes for both
slots, then the metadata file.  A failed vault write aborts before the
metadata write; with the all-or-nothing `keyringAvailable` environment no
partial vault update can precede the failure, so the error carries no state
change, as in the Go original where the first `keyring.Set` already fails. -/
def saveTokenToKeyring (token : Token) (s : StoreState) : Except Unit StoreState :=
  match saveOAuthToVault token s with
  | .error e => .error e
  | .ok s1 =>
    match saveCodingToVault token s1 with
    | .error e => .error e
    | .ok s2 => .ok { s2 with metadataFile := some (buildMetadata token) }

/-- `saveTokenToFile` (token.go lines 185-205): serialize the whole bundle to
the single token file.  The disk write itself is modelled as reliable; its
non-atomicity with respect to concurrent readers is modelled separately by
`saveTokenToFileOps` below. -/
def saveTokenToFile (token : Token) (s : StoreState) : StoreState :=
  { s with tokenFile := some token }

/-- `SaveToken` (token.go lines 110-135): in keyring mode try the vault, and
on any failure set `useKeyring := false` for the rest of the process and
retry as a single file write; in file mode write the file directly. -/
def SaveToken (token : Token) (s : StoreState) : StoreState :=
  if s.useKeyring then
    match saveTokenToKeyring token s with
    | .ok s1 => s1
    | .error _ => saveTokenToFile token { s with useKeyring := false }
  else saveTokenToFile token s

/-- token.go lines 253-270: rebuild the OAuth slot from metadata plus vault.
The slot is only consulted when the metadata records a token type; a
`keyring.Get` error other than `ErrNotFound` aborts the whole load; the
refresh-token read ignores its error (yielding the empty string); an empty
access token yields an absent slot. -/
def loadOAuthSlot (s : StoreState) (md : TokenMetadata) : Except Unit (Option TokenData) :=
  if md.oauthTokenType = "" then .ok none
  else
    match keyringGet s .oauthAccess with
    | .otherError => .error ()
    | g =>
      let oauthAccess := match g with | .found v => v | _ => ""
      let oauthRefresh := match keyringGet s .oauthRefresh with | .found v => v | _ => ""
      if oauthAccess = "" then .ok none
      else
        .ok (some { accessToken := oauthAccess, refreshToken := oauthRefresh,
                    tokenType := md.oauthTokenType, expiresAt := md.oauthExpiresAt })

/-- token.go lines 272-286: rebuild the coding slot (no refresh token). -/
def loadCodingSlot (s : StoreState) (md : TokenMetadata) : Except Unit (Option TokenData) :=
  if md.codingTokenType = "" then .ok none
  else
    match keyringGet s .codingAccess with
    | .otherError => .error ()
    | g =>
      let codingAccess := match g with | .found v => v | _ => ""
      if codingAccess = "" then .ok none
      else
        .ok (some { accessToken := codingAccess, refreshToken := "",
                    tokenType := md.codingTokenType, expiresAt := md.codingExpiresAt })

/-- `loadTokenFromKeyring` (token.go lines 234-289): metadata file first,
then both vault slots. -/
def loadTokenFromKeyring (s : StoreState) : Except Unit Token :=
  match s.metadataFile with
  | none => .error ()
  | some md =>
    match loadOAuthSlot s md with
    | .error e => .error e
    | .ok oauthSlot =>
      match loadCodingSlot s md with
      | .error e => .error e
      | .ok codingSlot => .ok { coding := codingSlot, oauth := oauthSlot, cli := none }

/-- token.go lines 308-312: migrate the deprecated `cli` field into the
`coding` slot when the latter is empty, clearing the deprecated field. -/
def migrateCLI (t : Token) : Token :=
  if t.cli.isSome && t.coding.isNone then { t with coding := t.cli, cli := none } else t

/-- `loadTokenFromFile` (token.go lines 292-315): read and parse the token
file, then apply the legacy migration. -/
def loadTokenFromFile (s : StoreState) : Except Unit Token :=
  match s.tokenFile with
  | none => .error ()
  | some t => .ok (migrateCLI t)

/-- `LoadToken` (token.go lines 208-231).  An existing token file forces file
mode for the rest of the process; otherwise in keyring mode a failed keyring
load also sets `useKeyring := false` and falls back to the file.  The
returned state records the effect on the package-level flag. -/
def LoadToken (s : StoreState) : Except Unit Token × StoreState :=
  if s.tokenFile.isSome then
    let s1 := { s with useKeyring := false }
    (loadTokenFromFile s1, s1)
  else if s.useKeyring then
    match loadTokenFromKeyring s with
    | .ok t => (.ok t, s)
    | .error _ =>
      let s1 := { s with useKeyring := false }
      (loadTokenFromFile s1, s1)
  else (loadTokenFromFile s, s)

/-- A fresh keyring-mode state: vault reachable and empty, no files. -/
def c4State : StoreState :=
  { useKeyring := true, keyringAvailable := true, vault := VaultState.empty,
    metadataFile := none, tokenFile := none }

/-- A bundle with a populated primary slot. -/
def c4Bundle : Token :=
  { coding := none, oauth := some ⟨none, "acc", "ref", "Bearer"⟩, cli := none }

/-- C4 as stated is false on the code: starting from a fresh keyring-mode
state whose metadata read fails (no metadata file), `LoadToken` does persist
the file-mode choice — the package flag is left `false` — and a subsequent
`SaveToken` against a perfectly reachable vault therefore writes the plain
file and never touches the vault, with no Save ever having failed. -/
theorem c4_read_fallback_persists :
    (LoadToken c4State).2.useKeyring = false ∧
    (SaveToken c4Bundle (LoadToken c4State).2).tokenFile = some c4Bundle ∧
    (SaveToken c4Bundle (LoadToken c4State).2).vault = VaultState.empty := by
  decide

/-- C4 amended: write-fallback is sticky exactly as claimed (a failed vault
save sets file mode for the rest of the process and rewrites the bundle as a
single file write), but read-fallback is sticky too: in keyring mode, with no
token file on disk, any failing keyring/metadata load also clears the
process-wide `useKeyring` flag; and once in file mode every save is a single
file write leaving the vault untouched. -/
theorem c4_fallback_stickiness (s : StoreState) (token : Token) :
    (s.useKeyring = true → saveTokenToKeyring token s = .error () →
      (SaveToken token s).useKeyring = false ∧ (SaveToken token s).tokenFile = some token) ∧
    (s.tokenFile = none → s.useKeyring = true → loadTokenFromKeyring s = .error () →
      (LoadToken s).2.useKeyring = false) ∧
    (s.useKeyring = false →
      (SaveToken token s).tokenFile = some token ∧ (SaveToken token s).vault = s.vault) := by
  refine ⟨?_, ?_, ?_⟩
  · intro h1 h2
    simp [SaveToken, h1, h2, saveTokenToFile]
  · intro hf hk he
    simp [LoadToken, hf, hk, he]
  · intro h
    simp [SaveToken, h, saveTokenToFile]

/-- A keyring-mode state whose vault is unreachable and which has no files. -/
def c4WState : StoreState :=
  { useKeyring := true, keyringAvailable := false, vault := VaultState.empty,
    metadataFile := none, tokenFile := none }

/-- Witness for `c4_fallback_stickiness`: with the vault unreachable, both a
save and a load flip the process to file mode. -/
theorem c4_fallback_stickiness_witness :
    (SaveToken c4Bundle c4WState).useKeyring = false ∧
    (LoadToken c4WState).2.useKeyring = false :=
  ⟨((c4_fallback_stickiness c4WState c4Bundle).1 rfl (by decide)).1,
   (c4_fallback_stickiness c4WState c4Bundle).2.1 rfl rfl (by decide)⟩

/-- A bundle whose primary slot has a non-empty access token but an empty
token type. -/
def c5Bundle : Token := { coding := none, oauth := some ⟨none, "acc", "", ""⟩, cli := none }

/-- A fresh keyring-mode state for the round-trip runs. -/
def c5State : StoreState :=
  { useKeyring := true, keyringAvailable := true, vault := VaultState.empty,
    metadataFile := none, tokenFile := none }

/-- C5 as stated is false on the code: in keyring mode, saving a bundle whose
primary slot carries an empty `token_type` and then loading yields an empty
bundle, not the saved one — the metadata gate `OAuthTokenType != ""` in
`loadTokenFromKeyring` drops the slot even though its access token is stored
in the vault. -/
theorem c5_keyring_round_trip_fails :
    (LoadToken (SaveToken c5Bundle c5State)).1 =
      .ok { coding := none, oauth := none, cli := none } ∧
    (LoadToken (SaveToken c5Bundle c5State)).1 ≠ .ok c5Bundle := by
  decide

/-- The condition under which the keyring backend reproduces a primary slot:
empty, or populated with non-empty access token and token type. -/
def oauthSlotRoundTrips (x : Option TokenData) : Bool :=
  match x with
  | none => true
  | some o => o.accessToken ≠ "" && o.tokenType ≠ ""

/-- The condition under which the keyring backend reproduces a service slot:
empty, or populated with non-empty access token and token type and no
refresh token (the vault has no entry for a service-slot refresh token). -/
def codingSlotRoundTrips (x : Option TokenData) : Bool :=
  match x with
  | none => true
  | some c => c.accessToken ≠ "" && c.tokenType ≠ "" && c.refreshToken = ""

/-- C5 amended: for bundles without the legacy field, save-then-load is the
identity (i) in pure file mode unconditionally, and (ii) in keyring mode with
a reachable, initially empty vault and no token file on disk, provided each
populated slot carries a non-empty access token and token type and the
service slot carries no refresh token. -/
theorem c5_round_trip (bundle : Token) (s : StoreState) (hcli : bundle.cli = none) :
    (s.useKeyring = false → (LoadToken (SaveToken bundle s)).1 = .ok bundle) ∧
    (s.useKeyring = true → s.keyringAvailable = true → s.tokenFile = none →
     s.vault = VaultState.empty →
     oauthSlotRoundTrips bundle.oauth = true →
     codingSlotRoundTrips bundle.coding = true →
     (LoadToken (SaveToken bundle s)).1 = .ok bundle) := by
  constructor
  · intro h
    simp [SaveToken, h, saveTokenToFile, LoadToken, loadTokenFromFile, migrateCLI, hcli]
  · intro hk hka htf hv hso hsc
    obtain ⟨coding, oauth, cli⟩ := bundle
    simp only at hcli hso hsc
    subst hcli
    obtain ⟨uk, ka, v, mdf, tf⟩ := s
    simp only at hk hka htf hv
    subst hk; subst hka; subst htf; subst hv
    cases oauth with
    | none =>
      cases coding with
      | none =>
        simp [SaveToken, saveTokenToKeyring, saveOAuthToVault, saveCodingToVault,
          buildMetadata, LoadToken, loadTokenFromKeyring, loadOAuthSlot, loadCodingSlot,
          keyringGet, VaultState.empty]
      | some c =>
        obtain ⟨ce, ca, crf, ct⟩ := c
        simp only [codingSlotRoundTrips, Bool.and_eq_true, decide_eq_true_eq, ne_eq] at hsc
        obtain ⟨⟨hca, hct⟩, hcr⟩ := hsc
        subst hcr
        simp [SaveToken, saveTokenToKeyring, saveOAuthToVault, saveCodingToVault,
          buildMetadata, keyringSet, LoadToken, loadTokenFromKeyring, loadOAuthSlot,
          loadCodingSlot, keyringGet, VaultState.empty, hca, hct]
    | some o =>
      obtain ⟨oe, oa, orf, ot⟩ := o
      simp only [oauthSlotRoundTrips, Bool.and_eq_true, decide_eq_true_eq, ne_eq] at hso
      obtain ⟨hoa, hot⟩ := hso
      cases coding with
      | none =>
        by_cases hor : orf = ""
        · subst hor
          simp [SaveToken, saveTokenToKeyring, saveOAuthToVault, saveCodingToVault,
            buildMetadata, keyringSet, LoadToken, loadTokenFromKeyring, loadOAuthSlot,
            loadCodingSlot, keyringGet, VaultState.empty, hoa, hot]
        · simp [SaveToken, saveTokenToKeyring, saveOAuthToVault, saveCodingToVault,
            buildMetadata, keyringSet, LoadToken, loadTokenFromKeyring, loadOAuthSlot,
            loadCodingSlot, keyringGet, VaultState.empty, hoa, hot, hor]
      | some c =>
        obtain ⟨ce, ca, crf, ct⟩ := c
        simp only [codingSlotRoundTrips, Bool.and_eq_true, decide_eq_true_eq, ne_eq] at hsc
        obtain ⟨⟨hca, hct⟩, hcr⟩ := hsc
        subst hcr
        by_cases hor : orf = ""
        · subst hor
          simp [SaveToken, saveTokenToKeyring, saveOAuthToVault, saveCodingToVault,
            buildMetadata, keyringSet, LoadToken, loadTokenFromKeyring, loadOAuthSlot,
            loadCodingSlot, keyringGet, VaultState.empty, hoa, hot, hca, hct]
        · simp [SaveToken, saveTokenToKeyring, saveOAuthToVault, saveCodingToVault,
            buildMetadata, keyringSet, LoadToken, loadTokenFromKeyring, loadOAuthSlot,
            loadCodingSlot, keyringGet, VaultState.empty, hoa, hot, hor, hca, hct]

/-- A fresh pure-file-mode state. -/
def c5FileState : StoreState :=
  { useKeyring := false, keyringAvailable := true, vault := VaultState.empty,
    metadataFile := none, tokenFile := none }

/-- A well-formed two-slot bundle. -/
def c5GoodBundle : Token :=
  { coding := some ⟨some 50, "ctok", "", "Bearer"⟩,
    oauth := some ⟨some 100, "otok", "oref", "Bearer"⟩, cli := none }

/-- Witness for `c5_round_trip`: the round trip carried out in file mode and
in keyring mode on a concrete two-slot bundle. -/
theorem c5_round_trip_witness :
    (LoadToken (SaveToken c5GoodBundle c5FileState)).1 = .ok c5GoodBundle ∧
    (LoadToken (SaveToken c5GoodBundle c5State)).1 = .ok c5GoodBundle :=
  ⟨(c5_round_trip c5GoodBundle c5FileState rfl).1 rfl,
   (c5_round_trip c5GoodBundle c5State rfl).2 rfl rfl rfl rfl (by decide) (by decide)⟩

/-- C6: a legacy-format token file whose only populated field is the
deprecated `cli` field loads into the service slot with the deprecated field
cleared, and any save of the loaded bundle either leaves the token file alone
(keyring path) or writes exactly the migrated bundle, whose `cli` field is
`none` — so the deprecated field, being `omitempty`, is never serialized
again. -/
theorem c6_legacy_migration (td : TokenData) (s : StoreState)
    (hfile : s.tokenFile = some { coding := none, oauth := none, cli := some td }) :
    (LoadToken s).1 = .ok { coding := some td, oauth := none, cli := none } ∧
    (∀ s2,
      (SaveToken { coding := some td, oauth := none, cli := none } s2).tokenFile = s2.tokenFile ∨
      (SaveToken { coding := some td, oauth := none, cli := none } s2).tokenFile =
        some { coding := some td, oauth := none, cli := none }) ∧
    ({ coding := some td, oauth := none, cli := none } : Token).cli = none := by
  refine ⟨?_, ?_, rfl⟩
  · simp [LoadToken, hfile, loadTokenFromFile, migrateCLI]
  · intro s2
    by_cases hu : s2.useKeyring
    · by_cases ha : td.accessToken = ""
      · left
        simp [SaveToken, hu, saveTokenToKeyring, saveOAuthToVault, saveCodingToVault, ha]
      · by_cases hav : s2.keyringAvailable
        · left
          simp [SaveToken, hu, saveTokenToKeyring, saveOAuthToVault, saveCodingToVault,
            keyringSet, ha, hav]
        · right
          simp [SaveToken, hu, saveTokenToKeyring, saveOAuthToVault, saveCodingToVault,
            keyringSet, ha, hav, saveTokenToFile]
    · right
      simp [SaveToken, hu, saveTokenToFile]

/-- A concrete legacy token. -/
def c6TD : TokenData := ⟨some 5, "legacy-tok", "", "Bearer"⟩

/-- A state holding a legacy-format token file with only the `cli` field. -/
def c6State : StoreState :=
  { useKeyring := true, keyringAvailable := true, vault := VaultState.empty,
    metadataFile := none, tokenFile := some { coding := none, oauth := none, cli := some c6TD } }

/-- Witness for `c6_legacy_migration` on a concrete legacy file and a
concrete subsequent save. -/
theorem c6_legacy_migration_witness :
    (LoadToken c6State).1 = .ok { coding := some c6TD, oauth := none, cli := none } ∧
    ((SaveToken { coding := some c6TD, oauth := none, cli := none } c6State).tokenFile =
        c6State.tokenFile ∨
     (SaveToken { coding := some c6TD, oauth := none, cli := none } c6State).tokenFile =
        some { coding := some c6TD, oauth := none, cli := none }) :=
  ⟨(c6_legacy_migration c6TD c6State rfl).1,
   (c6_legacy_migration c6TD c6State rfl).2.1 c6State⟩

/-- An `oauth2.Token` as returned by the refresh grant through
`tokenSource.Token()`; `expiry` is `none` when `Expiry.IsZero()` holds
(token.go lines 431-434). -/
structure OAuth2Token where
  accessToken : String
  refreshToken : String
  tokenType : String
  expiry : Option Instant
deriving Repr, DecidableEq

/-- The error cases of `EnsureOAuthTokenValid`, by source line:
`loadFailed` (391), `noOAuthToken` (395, an Unauthenticated telling the user
to login first), `noRefreshToken` (408, an Unauthenticated telling the user
to login again), `refreshFailed` (427). -/
inductive AuthError
  | loadFailed
  | noOAuthToken
  | noRefreshToken
  | refreshFailed
deriving Repr, DecidableEq

/-- Result of a run of `EnsureOAuthTokenValid`: the returned token or error,
the store state afterwards, and the number of outbound refresh-grant HTTP
calls made during the run. -/
structure EnsureResult where
  result : Except AuthError TokenData
  state : StoreState
  refreshCalls : Nat
deriving Repr, DecidableEq

/-- `EnsureOAuthTokenValid` (token.go lines 382-450).  The body runs under
`tokenMutex`, so it is a single critical section; `refreshResp` is the
provider response to the refresh-token grant that `tokenSource.Token()`
issues when reached (`.error` for a transport failure or non-2xx).  The
`SaveToken` of the refreshed bundle is modelled as reliable, as the file
backend never fails in this embedding. -/
def EnsureOAuthTokenValid (now : Instant) (refreshResp : Except Unit OAuth2Token)
    (s : StoreState) : EnsureResult :=
  match LoadToken s with
  | (.error _, s1) => ⟨.error .loadFailed, s1, 0⟩
  | (.ok token, s1) =>
    match token.oauth with
    | none => ⟨.error .noOAuthToken, s1, 0⟩
    | some o =>
      if !(IsExpiredWithSkew (some o) now DefaultClockSkew) then ⟨.ok o, s1, 0⟩
      else if o.refreshToken = "" then ⟨.error .noRefreshToken, s1, 0⟩
      else
        match refreshResp with
        | .error _ => ⟨.error .refreshFailed, s1, 1⟩
        | .ok newToken =>
          let newOAuth : TokenData :=
            { accessToken := newToken.accessToken, refreshToken := newToken.refreshToken,
              tokenType := newToken.tokenType, expiresAt := newToken.expiry }
          let token1 := { token with oauth := some newOAuth }
          ⟨.ok newOAuth, SaveToken token1 s1, 1⟩

/-- A primary `TokenData` with an empty access token and no expiry. -/
def c1EmptyAccessTD : TokenData := ⟨none, "", "", ""⟩

/-- A file-mode store whose bundle holds that unusable primary token. -/
def c1State : StoreState :=
  { useKeyring := false, keyringAvailable := true, vault := VaultState.empty,
    metadataFile := none,
    tokenFile := some { coding := none, oauth := some c1EmptyAccessTD, cli := none } }

/-- C1 as stated is false on the code: for a stored bundle whose primary
`TokenData` has an empty access token (so no usable primary token by the
data-model invariant, as `IsValid` is false), `EnsureOAuthTokenValid` does
not fail with an Unauthenticated error — the nil check on the slot passes
and, the token carrying no expiry, it is returned as is. -/
theorem c1_empty_access_token_returned :
    (EnsureOAuthTokenValid 0 (Except.error ()) c1State).result = .ok c1EmptyAccessTD ∧
    (EnsureOAuthTokenValid 0 (Except.error ()) c1State).refreshCalls = 0 ∧
    IsValid (some c1EmptyAccessTD) 0 = false := by
  decide

/-- C1 amended: when the loaded bundle has no primary slot at all the call
fails with the Unauthenticated login-first error; when the primary token —
usable or not — is unexpired under the default skew it is returned
immediately with no network call; and when it is expired and carries no
refresh token the call fails with the Unauthenticated login-again error, no
refresh attempted. -/
theorem c1_ensure_oauth_unauthenticated (now : Instant) (r : Except Unit OAuth2Token)
    (s s1 : StoreState) (t : Token) (hload : LoadToken s = (.ok t, s1)) :
    (t.oauth = none →
      (EnsureOAuthTokenValid now r s).result = .error .noOAuthToken) ∧
    (∀ o, t.oauth = some o → IsExpiredWithSkew (some o) now DefaultClockSkew = false →
      (EnsureOAuthTokenValid now r s).result = .ok o ∧
      (EnsureOAuthTokenValid now r s).refreshCalls = 0) ∧
    (∀ o, t.oauth = some o → IsExpiredWithSkew (some o) now DefaultClockSkew = true →
      o.refreshToken = "" →
      (EnsureOAuthTokenValid now r s).result = .error .noRefreshToken ∧
      (EnsureOAuthTokenValid now r s).refreshCalls = 0) := by
  refine ⟨?_, ?_, ?_⟩
  · intro h
    simp [EnsureOAuthTokenValid, hload, h]
  · intro o ho hval
    simp [EnsureOAuthTokenValid, hload, ho, hval]
  · intro o ho hexp href
    simp [EnsureOAuthTokenValid, hload, ho, hexp, href]

/-- A usable, non-expiring primary token. -/
def c1WitnessTD : TokenData := ⟨none, "otok", "", "Bearer"⟩

/-- A file-mode store holding that token. -/
def c1WState : StoreState :=
  { useKeyring := false, keyringAvailable := true, vault := VaultState.empty,
    metadataFile := none,
    tokenFile := some { coding := none, oauth := some c1WitnessTD, cli := none } }

/-- Witness for `c1_ensure_oauth_unauthenticated`: the unexpired-token branch
at a concrete state, returning the token with zero network calls. -/
theorem c1_ensure_oauth_unauthenticated_witness :
    (EnsureOAuthTokenValid 0 (Except.error ()) c1WState).result = .ok c1WitnessTD ∧
    (EnsureOAuthTokenValid 0 (Except.error ()) c1WState).refreshCalls = 0 :=
  (c1_ensure_oauth_unauthenticated 0 (Except.error ()) c1WState c1WState
      { coding := none, oauth := some c1WitnessTD, cli := none } (by decide)).2.1
    c1WitnessTD rfl (by decide)

/-- The `/api/v1/tokens/coding_current` response (token.go lines 453-456);
`expiresAt` is `none` when the decoded `time.Time` is the zero value, which
is also what an absent JSON field decodes to. -/
structure CodingTokenResponse where
  expiresAt : Option Instant
  token : String
deriving Repr, DecidableEq

/-- The provider HTTP exchange as seen by `GetCodingToken`: the status code
and the result of `json.Unmarshal` on the body. -/
structure CodingFetch where
  statusCode : Nat
  bodyDecode : Except Unit CodingTokenResponse
deriving Repr, DecidableEq

/-- The error cases of `GetCodingToken`, by source line: a propagated
`EnsureOAuthTokenValid` error (463), `loadFailed` (474), `transportFailed`
(497), the 401/403 login-again error (504), the 404 endpoint error (508),
the generic non-2xx error (514), `decodeFailed` (526). -/
inductive CodingError
  | ensureOAuthFailed (e : AuthError)
  | loadFailed
  | transportFailed
  | authFailedLoginAgain (status : Nat)
  | endpointNotFound (status : Nat)
  | fetchFailed (status : Nat)
  | decodeFailed
deriving Repr, DecidableEq

/-- Result of a run of `GetCodingToken`. -/
structure CodingResult where
  result : Except CodingError TokenData
  state : StoreState
deriving Repr, DecidableEq

/-- token.go lines 486-548: the fetch of a new coding token once the cached
one was found missing or invalid: classify the HTTP response, and on a 200
store the returned token with the default `Bearer` type.  Lines 530-533
convert the decoded `time.Time` into a `*time.Time`, mapping the zero value
to nil; with `Option Instant` standing for absent-or-zero, that conversion
is the identity on `expiresAt`. -/
def fetchAndStoreCodingToken (fetch : Option CodingFetch) (token : Token)
    (s1 : StoreState) : CodingResult :=
  match fetch with
  | none => ⟨.error .transportFailed, s1⟩
  | some f =>
    if f.statusCode = 401 ∨ f.statusCode = 403 then
      ⟨.error (.authFailedLoginAgain f.statusCode), s1⟩
    else if f.statusCode = 404 then
      ⟨.error (.endpointNotFound f.statusCode), s1⟩
    else if f.statusCode ≠ 200 then
      ⟨.error (.fetchFailed f.statusCode), s1⟩
    else
      match f.bodyDecode with
      | .error _ => ⟨.error .decodeFailed, s1⟩
      | .ok codingResp =>
        let newCoding : TokenData :=
          { expiresAt := codingResp.expiresAt, accessToken := codingResp.token,
            refreshToken := "", tokenType := "Bearer" }
        let token1 := { token with coding := some newCoding }
        ⟨.ok newCoding, SaveToken token1 s1⟩

/-- `GetCodingToken` (token.go lines 460-548): ensure the primary token is
valid (possibly refreshing), re-enter the mutex, reload the bundle, return
the cached coding token when still valid, otherwise fetch and store a new
one. -/
def GetCodingToken (now : Instant) (refreshResp : Except Unit OAuth2Token)
    (fetch : Option CodingFetch) (s : StoreState) : CodingResult :=
  let e := EnsureOAuthTokenValid now refreshResp s
  match e.result with
  | .error err => ⟨.error (.ensureOAuthFailed err), e.state⟩
  | .ok _oauthToken =>
    match LoadToken e.state with
    | (.error _, s1) => ⟨.error .loadFailed, s1⟩
    | (.ok token, s1) =>
      match token.coding with
      | some c =>
        if IsValid (some c) now then ⟨.ok c, s1⟩
        else fetchAndStoreCodingToken fetch token s1
      | none => fetchAndStoreCodingToken fetch token s1

/-- C3: on a `GetCodingToken` call whose service-slot token is not already
valid, the provider response is classified as claimed — 401/403 give the
Unauthenticated login-again error, 404 the distinct endpoint-not-found
error, any other non-2xx the generic fetch-failed error — and a 200 stores
the returned access token with the default `Bearer` type and the provider
expiry (`none` when absent), persists the bundle, and returns the new
token. -/
theorem c3_coding_token_classification
    (now : Instant) (r : Except Unit OAuth2Token) (fetch : Option CodingFetch)
    (s s1 : StoreState) (o : TokenData) (t : Token)
    (hensure : (EnsureOAuthTokenValid now r s).result = .ok o)
    (hload : LoadToken (EnsureOAuthTokenValid now r s).state = (.ok t, s1))
    (hnv : IsValid t.coding now = false) :
    (fetch = none → (GetCodingToken now r fetch s).result = .error .transportFailed) ∧
    (∀ f, fetch = some f → (f.statusCode = 401 ∨ f.statusCode = 403) →
      (GetCodingToken now r fetch s).result = .error (.authFailedLoginAgain f.statusCode)) ∧
    (∀ f, fetch = some f → f.statusCode = 404 →
      (GetCodingToken now r fetch s).result = .error (.endpointNotFound f.statusCode)) ∧
    (∀ f, fetch = some f → f.statusCode ≠ 401 → f.statusCode ≠ 403 → f.statusCode ≠ 404 →
      f.statusCode ≠ 200 →
      (GetCodingToken now r fetch s).result = .error (.fetchFailed f.statusCode)) ∧
    (∀ f resp, fetch = some f → f.statusCode = 200 → f.bodyDecode = .ok resp →
      (GetCodingToken now r fetch s).result =
        .ok (⟨resp.expiresAt, resp.token, "", "Bearer"⟩ : TokenData) ∧
      (GetCodingToken now r fetch s).state =
        SaveToken { t with coding := some ⟨resp.expiresAt, resp.token, "", "Bearer"⟩ } s1) := by
  have hred : GetCodingToken now r fetch s = fetchAndStoreCodingToken fetch t s1 := by
    cases hc : t.coding with
    | none => simp [GetCodingToken, hensure, hload, hc]
    | some _c =>
      rw [hc] at hnv
      simp [GetCodingToken, hensure, hload, hc, hnv]
  refine ⟨?_, ?_, ?_, ?_, ?_⟩
  · intro hf
    rw [hred, hf]
    rfl
  · intro f hf hst
    rw [hred, hf]
    rcases hst with h | h <;> simp [fetchAndStoreCodingToken, h]
  · intro f hf hst
    rw [hred, hf]
    simp [fetchAndStoreCodingToken, hst]
  · intro f hf h1 h2 h3 h4
    rw [hred, hf]
    simp [fetchAndStoreCodingToken, h1, h2, h3, h4]
  · intro f resp hf hst hbody
    rw [hred, hf]
    simp [fetchAndStoreCodingToken, hst, hbody]

/-- A usable, non-expiring primary token for the C3 witness run. -/
def c3OAuthTD : TokenData := ⟨none, "otok", "", "Bearer"⟩

/-- A file-mode store with a primary token and no coding token. -/
def c3WState : StoreState :=
  { useKeyring := false, keyringAvailable := true, vault := VaultState.empty,
    metadataFile := none,
    tokenFile := some { coding := none, oauth := some c3OAuthTD, cli := none } }

/-- A 200 provider response carrying a coding token with an expiry. -/
def c3Fetch : CodingFetch := ⟨200, .ok ⟨some 99, "ctok"⟩⟩

/-- The coding token the run should store. -/
def c3NewCoding : TokenData := ⟨some 99, "ctok", "", "Bearer"⟩

/-- Witness for `c3_coding_token_classification`: the 200 branch on a
concrete state, returning and persisting the stored token. -/
theorem c3_coding_token_classification_witness :
    (GetCodingToken 0 (Except.error ()) (some c3Fetch) c3WState).result = .ok c3NewCoding ∧
    (GetCodingToken 0 (Except.error ()) (some c3Fetch) c3WState).state =
      SaveToken { coding := some c3NewCoding, oauth := some c3OAuthTD, cli := none } c3WState :=
  (c3_coding_token_classification 0 (Except.error ()) (some c3Fetch) c3WState c3WState
      c3OAuthTD { coding := none, oauth := some c3OAuthTD, cli := none }
      (by decide) (by decide) rfl).2.2.2.2
    c3Fetch ⟨some 99, "ctok"⟩ rfl rfl rfl

/-- A primitive mutation observable at the token-file path. -/
inductive FsWriteOp
  | truncate
  | writeData (content : Token)
  | renameInto (content : Token)
deriving Repr, DecidableEq

/-- `os.WriteFile(path, data, 0600)` opens the path with
`O_WRONLY|O_CREATE|O_TRUNC` and then writes the bytes: the path is first
truncated and only afterwards filled. -/
def writeFileOps (content : Token) : List FsWriteOp := [.truncate, .writeData content]

/-- The primitive mutations `saveTokenToFile` (token.go line 198) performs at
the token-file path: a single in-place `os.WriteFile` — no temporary file
and no rename.  (The repository does use the write-temp-then-rename pattern,
`FsWriteOp.renameInto`, for the codex `config.toml`, but not here.) -/
def saveTokenToFileOps (token : Token) : List FsWriteOp := writeFileOps token

/-- Content observable at the path after a primitive mutation; `none` is a
truncated or half-written file, not a complete serialized bundle. -/
def applyFsOp (_c : Option Token) (op : FsWriteOp) : Option Token :=
  match op with
  | .truncate => none
  | .writeData t => some t
  | .renameInto t => some t

/-- Every content a concurrent reader can observe at the path while the
mutation sequence runs: before any step and after each step. -/
def observableContents (old : Option Token) : List FsWriteOp → List (Option Token)
  | [] => [old]
  | op :: rest => old :: observableContents (applyFsOp old op) rest

/-- The content at the path once the sequence completes. -/
def finalContent (old : Option Token) (ops : List FsWriteOp) : Option Token :=
  ops.foldl applyFsOp old

/-- The whole-file-update requirement of the spec: at every point a reader
sees either the old or the final content, never a half-written file. -/
def atomicForReaders (old : Option Token) (ops : List FsWriteOp) : Prop :=
  ∀ c ∈ observableContents old ops, c = old ∨ c = finalContent old ops

instance (old : Option Token) (ops : List FsWriteOp) : Decidable (atomicForReaders old ops) := by
  unfold atomicForReaders
  infer_instance

/-- A previously stored bundle. -/
def c8Old : Token := { coding := none, oauth := some ⟨none, "old", "", "Bearer"⟩, cli := none }

/-- The bundle being saved over it. -/
def c8New : Token := { coding := none, oauth := some ⟨none, "new", "", "Bearer"⟩, cli := none }

/-- C8 fails on the code: the file-mode save writes the token file in place
with `os.WriteFile`, so between its truncate and its write a concurrent
reader observes a file that is neither the old nor the new bundle — even
though the write does complete with the new content, and even though the
single-rename sequence the spec demands would have been atomic for
readers. -/
theorem c8_save_token_file_not_atomic :
    ¬ atomicForReaders (some c8Old) (saveTokenToFileOps c8New) ∧
    finalContent (some c8Old) (saveTokenToFileOps c8New) = some c8New ∧
    atomicForReaders (some c8Old) [FsWriteOp.renameInto c8New] := by
  refine ⟨by decide, by decide, by decide⟩

end CostaAuth
